import Mathlib

/-!
# procd service instances (`instance.c`)

A shallow embedding of the service-instance supervisor of procd: the
per-instance record, the start / stop / update operations, the two event-loop
callbacks and the status dump, followed by theorems about them.

Conventions of the embedding:

* `struct service_instance` is a Lean structure and every C function that
  mutates it through a pointer returns the new value;
* system calls (`fork`, `kill`, `putenv`, `execvp`, `exit`) are recorded, in
  program order, in a trace; what the operating system answers (the value of
  `fork`, whether `execvp` comes back) is an input of the model;
* a flow of control that ends inside the forked child (image replaced or
  `exit`) is reported with `returned = false`.
-/

namespace Procd

/-! ## blobmsg values -/

def BLOBMSG_TYPE_UNSPEC : Nat := 0
def BLOBMSG_TYPE_ARRAY : Nat := 1
def BLOBMSG_TYPE_TABLE : Nat := 2
def BLOBMSG_TYPE_STRING : Nat := 3
def BLOBMSG_TYPE_INT32 : Nat := 5

def SIGKILL : Nat := 9
def SIGTERM : Nat := 15

/-- An element of a blobmsg array or table (one argv string, one environment
entry): type id, name and payload as `blobmsg_data` reads it. -/
structure blob_attr_leaf where
  type : Nat
  name : String
  data : String
  deriving DecidableEq, Repr

/-- A top-level attribute of an instance configuration, such as `command`,
`env` or `data`: type id, name and the elements it contains. -/
structure blob_attr where
  type : Nat
  name : String
  children : List blob_attr_leaf
  deriving DecidableEq, Repr

/-- The configuration entry of one instance: a named table of attributes. -/
structure blob_attr_config where
  name : String
  attrs : List blob_attr
  deriving DecidableEq, Repr

/-- Entry of a `blobmsg_policy` table. -/
structure blobmsg_policy where
  name : String
  type : Nat
  deriving DecidableEq, Repr

def INSTANCE_ATTR_COMMAND : Nat := 0
def INSTANCE_ATTR_ENV : Nat := 1
def INSTANCE_ATTR_DATA : Nat := 2
def __INSTANCE_ATTR_MAX : Nat := 3

def instance_attr : List blobmsg_policy :=
  [ ⟨"command", BLOBMSG_TYPE_ARRAY⟩,
    ⟨"env", BLOBMSG_TYPE_TABLE⟩,
    ⟨"data", BLOBMSG_TYPE_TABLE⟩ ]

def blobmsg_name (config : blob_attr_config) : String := config.name

def blobmsg_data (cur : blob_attr_leaf) : String := cur.data

/-- The elements `blobmsg_for_each_attr` visits, in order. -/
def blobmsg_for_each_attr (attr : blob_attr) : List blob_attr_leaf := attr.children

/-- Modelled from the spec: the parsing primitive of the configuration
collaborator (libubox `blobmsg_parse`, absent from the source). Slot `i` of the
result is the first attribute of the entry whose name is the name of policy `i`
and whose type is the type the policy asks for; it is empty when there is
none. -/
def blobmsg_parse (policy : List blobmsg_policy) (config : blob_attr_config) :
    Nat → Option blob_attr :=
  fun i =>
    match policy.get? i with
    | none => none
    | some p =>
      config.attrs.find? fun a =>
        (p.type == BLOBMSG_TYPE_UNSPEC || a.type == p.type) && a.name == p.name

/-- Modelled from the spec: the validation primitive of the configuration
collaborator (libubox `blobmsg_check_attr_list`, absent from the source). The
attribute is a list (array or table) all of whose elements have the requested
type. -/
def blobmsg_check_attr_list (attr : blob_attr) (type : Nat) : Bool :=
  (attr.type == BLOBMSG_TYPE_ARRAY || attr.type == BLOBMSG_TYPE_TABLE) &&
    (blobmsg_for_each_attr attr).all fun cur => cur.type == type

/-- Modelled from the spec: content equality over command vectors (libubox
`blob_attr_equal`, absent from the source): two absent attributes are equal,
an absent and a present one differ, two present ones are compared by
content. -/
def blob_attr_equal (a1 a2 : Option blob_attr) : Bool := decide (a1 = a2)

/-! ## blobmsg lists (environment and data sets) -/

/-- Modelled from the spec: the key=value set of the configuration
collaborator (`struct blobmsg_list` of procd's utilities, absent from the
source), as the list of the entries it holds. -/
abbrev blobmsg_list := List blob_attr_leaf

/-- Modelled from the spec: `blobmsg_list_simple_init`, an empty set. -/
def blobmsg_list_simple_init : blobmsg_list := []

/-- Modelled from the spec: `blobmsg_list_fill`, which adds every element of
the attribute to the set. -/
def blobmsg_list_fill (list : blobmsg_list) (attr : blob_attr) : blobmsg_list :=
  list ++ blobmsg_for_each_attr attr

/-- Modelled from the spec: `blobmsg_list_free`, which releases every entry and
leaves the set empty. -/
def blobmsg_list_free (_list : blobmsg_list) : blobmsg_list := []

/-- Modelled from the spec: `blobmsg_list_move`, the ownership transfer that
gives the destination the contents of the source and leaves the source empty.
The result is (destination, source). -/
def blobmsg_list_move (_list src : blobmsg_list) : blobmsg_list × blobmsg_list :=
  (src, [])

/-- Modelled from the spec: `blobmsg_list_equal`, content equality ignoring
order with exact match of the entries. -/
def blobmsg_list_equal (l1 l2 : blobmsg_list) : Bool := l1.isPerm l2

/-! ## event loop records -/

/-- The fields of `struct uloop_process` the source reads and writes. -/
structure uloop_process where
  pending : Bool
  pid : Int
  deriving DecidableEq, Repr

/-- The field of `struct uloop_timeout` that says whether the timer is armed. -/
structure uloop_timeout where
  pending : Bool
  deriving DecidableEq, Repr

/-- Modelled from the spec: `watch_process`, after which the process is watched
(libubox `uloop_process_add`). -/
def uloop_process_add (p : uloop_process) : uloop_process := { p with pending := true }

/-- Modelled from the spec: `unwatch_process`, idempotent cancellation of the
watch (libubox `uloop_process_delete`). -/
def uloop_process_delete (p : uloop_process) : uloop_process := { p with pending := false }

/-- Modelled from the spec: `cancel_timer`, idempotent cancellation of the
one-shot timer (libubox `uloop_timeout_cancel`). -/
def uloop_timeout_cancel (t : uloop_timeout) : uloop_timeout := { t with pending := false }

/-! ## the instance -/

/-- The fields of `struct service_instance` used by `instance.c`. `command` is a
pointer in C and may be NULL. -/
structure service_instance where
  name : String
  config : blob_attr_config
  command : Option blob_attr
  env : blobmsg_list
  data : blobmsg_list
  valid : Bool
  restart : Bool
  proc : uloop_process
  timeout : uloop_timeout
  deriving DecidableEq, Repr

/-- One slot of the `argv` array of `instance_run`. -/
inductive argv_slot where
  | uninit
  | null
  | str (s : String)
  deriving DecidableEq, Repr

/-- System calls and faults, as recorded in a trace. -/
inductive Event where
  | fork (ret : Int)
  | kill (pid : Int) (sig : Nat)
  | putenv (s : String)
  | execvp (file : Option argv_slot) (argv : List argv_slot)
  | exit (status : Int)
  | fault
  deriving DecidableEq, Repr

/-- What the operating system answers during one call: the value `fork`
returns in this flow of control and whether `execvp` returns (it only returns
when it fails). -/
structure os where
  fork : Int
  execvp_returns : Bool
  deriving DecidableEq, Repr

/-- Outcome of an operation: the instance afterwards, the system calls issued
(oldest first) and whether control came back to the caller. -/
structure Run where
  inst : service_instance
  trace : List Event
  returned : Bool
  deriving DecidableEq, Repr

/-! ## `instance_run` -/

/-- The array `alloca(sizeof(char *) * argc)` gives: `argc` slots, not yet
written. -/
def alloca (argc : Nat) : List argv_slot := List.replicate argc argv_slot.uninit

/-- The store `argv[i] = v`; `none` when slot `i` is outside the array. -/
def argv_store (argv : List argv_slot) (i : Nat) (v : argv_slot) : Option (List argv_slot) :=
  if i < argv.length then some (argv.set i v) else none

/-- The second loop of `instance_run`: `argv[argc++] = blobmsg_data(cur)` for
every element of the command. -/
def instance_run_fill :
    List blob_attr_leaf → List argv_slot → Nat → Option (List argv_slot × Nat)
  | [], argv, argc => some (argv, argc)
  | cur :: rest, argv, argc =>
    match argv_store argv argc (argv_slot.str (blobmsg_data cur)) with
    | none => none
    | some argv1 => instance_run_fill rest argv1 (argc + 1)

/-- The first loop of `instance_run`: `argc++` for every element. -/
def instance_run_count : List blob_attr_leaf → Nat → Nat
  | [], argc => argc
  | _ :: rest, argc => instance_run_count rest (argc + 1)

/-- The child side of the fork, `instance_run`: the calls it issues. It never
returns: either `execvp` replaces the image or the child exits with 127. -/
def instance_run (sys : os) (in_ : service_instance) : List Event :=
  match in_.command with
  | none => [Event.fault]
  | some command =>
    let argc := instance_run_count (blobmsg_for_each_attr command) 1
    let env := in_.env.map fun var => Event.putenv (blobmsg_data var)
    let argv := alloca argc
    match instance_run_fill (blobmsg_for_each_attr command) argv 0 with
    | none => env ++ [Event.fault]
    | some (argv1, argc1) =>
      match argv_store argv1 argc1 argv_slot.null with
      | none => env ++ [Event.fault]
      | some argv2 =>
        env ++ [Event.execvp (argv2.get? 0) argv2] ++
          (if sys.execvp_returns then [Event.exit 127] else [])

/-! ## lifecycle operations -/

def instance_start (sys : os) (in_ : service_instance) : Run :=
  if in_.proc.pending then
    ⟨in_, [], true⟩
  else
    let in1 := { in_ with restart := false }
    if !in1.valid then
      ⟨in1, [], true⟩
    else
      let pid := sys.fork
      if pid < 0 then
        ⟨in1, [Event.fork pid], true⟩
      else if pid = 0 then
        ⟨in1, Event.fork pid :: instance_run sys in1, false⟩
      else
        ⟨{ in1 with proc := uloop_process_add { in1.proc with pid := pid } },
          [Event.fork pid], true⟩

def instance_exit (sys : os) (in_ : service_instance) (_ret : Int) : Run :=
  let in1 := { in_ with timeout := uloop_timeout_cancel in_.timeout }
  if in1.restart then
    instance_start sys in1
  else
    ⟨in1, [], true⟩

def instance_timeout (sys : os) (in_ : service_instance) : Run :=
  let in1 := { in_ with proc := uloop_process_delete in_.proc }
  let r := instance_exit sys in1 (-1)
  { r with trace := Event.kill in_.proc.pid SIGKILL :: r.trace }

def instance_stop (in_ : service_instance) (_restart : Bool) : Run :=
  if !in_.proc.pending then
    ⟨in_, [], true⟩
  else
    ⟨in_, [Event.kill in_.proc.pid SIGTERM], true⟩

def instance_config_changed (in_ in_new : service_instance) : Bool :=
  if !in_.valid then true
  else if !blob_attr_equal in_.command in_new.command then true
  else if !blobmsg_list_equal in_.env in_new.env then true
  else if !blobmsg_list_equal in_.data in_new.data then true
  else false

/-- The parse of the configuration entry of the instance: the verdict and the
instance with whatever was stored before the verdict was reached. -/
def instance_config_parse (in_ : service_instance) : Bool × service_instance :=
  let tb := blobmsg_parse instance_attr in_.config
  match tb INSTANCE_ATTR_COMMAND with
  | none => (false, in_)
  | some cur =>
    if !blobmsg_check_attr_list cur BLOBMSG_TYPE_STRING then (false, in_)
    else
      let argc : Nat :=
        match blobmsg_for_each_attr cur with
        | [] => 0
        | _ :: _ => 1
      if argc = 0 then (false, in_)
      else
        let in1 := { in_ with command := some cur }
        let env_ok : Bool :=
          match tb INSTANCE_ATTR_ENV with
          | none => true
          | some cur => blobmsg_check_attr_list cur BLOBMSG_TYPE_STRING
        if !env_ok then (false, in1)
        else
          let in2 :=
            match tb INSTANCE_ATTR_ENV with
            | none => in1
            | some cur => { in1 with env := blobmsg_list_fill in1.env cur }
          let data_ok : Bool :=
            match tb INSTANCE_ATTR_DATA with
            | none => true
            | some cur => blobmsg_check_attr_list cur BLOBMSG_TYPE_STRING
          if !data_ok then (false, in2)
          else
            let in3 :=
              match tb INSTANCE_ATTR_DATA with
              | none => in2
              | some cur => { in2 with data := blobmsg_list_fill in2.data cur }
            (true, in3)

def instance_config_cleanup (in_ : service_instance) : service_instance :=
  { in_ with env := blobmsg_list_free in_.env, data := blobmsg_list_free in_.data }

/-- The move of the configuration; the result is (destination, source). -/
def instance_config_move (in_ in_src : service_instance) :
    service_instance × service_instance :=
  let in1 := instance_config_cleanup in_
  let e := blobmsg_list_move in1.env in_src.env
  let d := blobmsg_list_move in1.data in_src.data
  ({ in1 with env := e.1, data := d.1, command := in_src.command, name := in_src.name },
   { in_src with env := e.2, data := d.2 })

/-- Outcome of `instance_update`: the value returned, both instances afterwards
and the system calls issued. -/
structure Update where
  changed : Bool
  inst : service_instance
  src : service_instance
  trace : List Event
  deriving DecidableEq, Repr

def instance_update (in_ in_new : service_instance) : Update :=
  let changed := instance_config_changed in_ in_new
  let in1 := { in_ with config := in_new.config }
  if !changed then
    ⟨false, in1, in_new, []⟩
  else
    let in2 := { in1 with restart := true }
    let r := instance_stop in2 true
    let m := instance_config_move r.inst in_new
    ⟨true, m.1, m.2, r.trace⟩

def instance_init (in_ : service_instance) (config : blob_attr_config) : service_instance :=
  let in1 := { in_ with name := blobmsg_name config, config := config }
  let in2 := { in1 with env := blobmsg_list_simple_init, data := blobmsg_list_simple_init }
  let p := instance_config_parse in2
  { p.2 with valid := p.1 }

/-! ## status dump -/

/-- Modelled from the spec: a field of the structured status record (the
`blob_buf` primitives of libubox are absent from the source): an 8-bit or
32-bit unsigned number under a name, or a copy of an attribute. -/
inductive blobmsg_field where
  | u8 (name : String) (val : Nat)
  | u32 (name : String) (val : Nat)
  | blob (attr : blob_attr)
  deriving DecidableEq, Repr

/-- A closed table of a `blob_buf`. -/
structure blobmsg_table where
  name : String
  fields : List blobmsg_field
  deriving DecidableEq, Repr

/-- Modelled from the spec: `blobmsg_add_blob` (libubox, absent from the
source), which copies the attribute it is handed into the table under
construction. It reads type, name and data through the pointer, so a NULL
attribute is a fault: `none`. -/
def blobmsg_add_blob (fields : List blobmsg_field) (attr : Option blob_attr) :
    Option (List blobmsg_field) :=
  match attr with
  | none => none
  | some a => some (fields ++ [blobmsg_field.blob a])

/-- The status dump: the buffer and the instance afterwards, or `none` when the
call faults. `in->command` is handed to `blobmsg_add_blob` as it is, NULL
included. -/
def instance_dump (b : List blobmsg_table) (in_ : service_instance) :
    Option (List blobmsg_table × service_instance) :=
  let f1 := [blobmsg_field.u8 "running" (if in_.proc.pending then 1 else 0)]
  let f2 := if in_.proc.pending then
      f1 ++ [blobmsg_field.u32 "pid" (in_.proc.pid % 2 ^ 32).toNat]
    else f1
  match blobmsg_add_blob f2 in_.command with
  | none => none
  | some f3 => some (b ++ [⟨in_.name, f3⟩], in_)

/-! ## the callers: construction and event delivery -/

/-- The zeroed memory the owner allocates for a new instance. -/
def service_instance_zero : service_instance :=
  { name := "", config := ⟨"", []⟩, command := none, env := [], data := [],
    valid := false, restart := false, proc := ⟨false, 0⟩, timeout := ⟨false⟩ }

/-- Modelled from the spec: `construct(config_entry) -> Instance`, the owner's
allocation of a zeroed instance (absent from the source) followed by
`instance_init`. -/
def construct (config : blob_attr_config) : service_instance :=
  instance_init service_instance_zero config

/-- Modelled from the spec: delivery of the process-exit notification by the
event loop (absent from the source): the process is no longer pending when the
callback `proc.cb = instance_exit` runs. -/
def uloop_deliver_exit (sys : os) (in_ : service_instance) (ret : Int) : Run :=
  instance_exit sys { in_ with proc := uloop_process_delete in_.proc } ret

/-- Modelled from the spec: expiry of the one-shot timer in the event loop
(absent from the source): the timer is no longer armed when the callback
`timeout.cb = instance_timeout` runs. -/
def uloop_deliver_timeout (sys : os) (in_ : service_instance) : Run :=
  instance_timeout sys { in_ with timeout := uloop_timeout_cancel in_.timeout }

/-- The states of an instance the supervisor can be in: those obtained from
`construct` by `start`, `stop`, `update` with a constructed snapshot, and the
two callbacks. The supervisor is the parent of every fork, so `fork` does not
return 0 in it; the exit callback is delivered for a watched process only and
the timer callback for an armed timer only. -/
inductive Reachable : service_instance → Prop where
  | construct (config : blob_attr_config) : Reachable (construct config)
  | start (sys : os) (in_ : service_instance) :
      Reachable in_ → sys.fork ≠ 0 → Reachable (instance_start sys in_).inst
  | stop (in_ : service_instance) (restart : Bool) :
      Reachable in_ → Reachable (instance_stop in_ restart).inst
  | update (in_ : service_instance) (config : blob_attr_config) :
      Reachable in_ → Reachable (instance_update in_ (Procd.construct config)).inst
  | exit (sys : os) (in_ : service_instance) (ret : Int) :
      Reachable in_ → in_.proc.pending = true → sys.fork ≠ 0 →
      Reachable (uloop_deliver_exit sys in_ ret).inst
  | timeout (sys : os) (in_ : service_instance) :
      Reachable in_ → in_.timeout.pending = true → sys.fork ≠ 0 →
      Reachable (uloop_deliver_timeout sys in_).inst

/-! ## sample values -/

def cmd_a : blob_attr := ⟨BLOBMSG_TYPE_ARRAY, "command", [⟨BLOBMSG_TYPE_STRING, "", "/bin/a"⟩]⟩
def cmd_b : blob_attr := ⟨BLOBMSG_TYPE_ARRAY, "command", [⟨BLOBMSG_TYPE_STRING, "", "/bin/b"⟩]⟩
def config_a : blob_attr_config := ⟨"inst1", [cmd_a]⟩
def config_b : blob_attr_config := ⟨"inst1", [cmd_b]⟩
def config_empty : blob_attr_config := ⟨"inst1", []⟩


/-- The instance constructed from `config_a` and started; the fork answered
pid 5. -/
def running_a : service_instance := (instance_start ⟨5, false⟩ (construct config_a)).inst

/-- The running instance after an update to `config_b`: still running pid 5,
with the restart flag set. -/
def running_a_updated : service_instance :=
  (instance_update running_a (construct config_b)).inst

/-- The instance constructed from `config_a`, never started, after an update to
`config_b`: valid, no process, restart flag set. -/
def stopped_a_updated : service_instance :=
  (instance_update (construct config_a) (construct config_b)).inst

/-- The instance constructed from an entry without a command, after an update
to the valid `config_a`. -/
def invalid_updated : service_instance :=
  (instance_update (construct config_empty) (construct config_a)).inst

/-- The steps of `Reachable` with nothing assumed about the event loop or about
`fork`: the two callbacks may run at any moment and `fork` may answer any
value. Every `Reachable` state is one of these. -/
inductive ReachableAny : service_instance → Prop where
  | construct (config : blob_attr_config) : ReachableAny (construct config)
  | start (sys : os) (in_ : service_instance) :
      ReachableAny in_ → ReachableAny (instance_start sys in_).inst
  | stop (in_ : service_instance) (restart : Bool) :
      ReachableAny in_ → ReachableAny (instance_stop in_ restart).inst
  | update (in_ : service_instance) (config : blob_attr_config) :
      ReachableAny in_ → ReachableAny (instance_update in_ (Procd.construct config)).inst
  | exit (sys : os) (in_ : service_instance) (ret : Int) :
      ReachableAny in_ → ReachableAny (uloop_deliver_exit sys in_ ret).inst
  | timeout (sys : os) (in_ : service_instance) :
      ReachableAny in_ → ReachableAny (uloop_deliver_timeout sys in_).inst

def env_ab : blob_attr :=
  ⟨BLOBMSG_TYPE_TABLE, "env",
    [⟨BLOBMSG_TYPE_STRING, "A", "A=1"⟩, ⟨BLOBMSG_TYPE_STRING, "B", "B=2"⟩]⟩
def env_ba : blob_attr :=
  ⟨BLOBMSG_TYPE_TABLE, "env",
    [⟨BLOBMSG_TYPE_STRING, "B", "B=2"⟩, ⟨BLOBMSG_TYPE_STRING, "A", "A=1"⟩]⟩
def cmd_sleep : blob_attr :=
  ⟨BLOBMSG_TYPE_ARRAY, "command",
    [⟨BLOBMSG_TYPE_STRING, "", "/bin/sleep"⟩, ⟨BLOBMSG_TYPE_STRING, "", "5"⟩]⟩
def config_a_env_ab : blob_attr_config := ⟨"inst1", [cmd_a, env_ab]⟩
def config_a_env_ba : blob_attr_config := ⟨"inst1", [env_ba, cmd_a]⟩
def config_sleep : blob_attr_config := ⟨"inst1", [cmd_sleep, env_ab]⟩

/-- The instance constructed from `config_a_env_ab` and started; the fork
answered pid 5. -/
def running_a_env : service_instance :=
  (instance_start ⟨5, false⟩ (construct config_a_env_ab)).inst

/-- The instance constructed from the valid `config_a`, after an update with
the snapshot of an entry without a command. -/
def valid_updated_empty : service_instance :=
  (instance_update (construct config_a) (construct config_empty)).inst

def cmd_none : blob_attr := ⟨BLOBMSG_TYPE_ARRAY, "command", []⟩
def cmd_int : blob_attr :=
  ⟨BLOBMSG_TYPE_ARRAY, "command",
    [⟨BLOBMSG_TYPE_STRING, "", "/bin/a"⟩, ⟨BLOBMSG_TYPE_INT32, "", "1"⟩]⟩
def cmd_string : blob_attr := ⟨BLOBMSG_TYPE_STRING, "command", []⟩
def env_int : blob_attr := ⟨BLOBMSG_TYPE_TABLE, "env", [⟨BLOBMSG_TYPE_INT32, "A", "1"⟩]⟩
def data_int : blob_attr := ⟨BLOBMSG_TYPE_TABLE, "data", [⟨BLOBMSG_TYPE_INT32, "A", "1"⟩]⟩

/-- The argument vector a command stands for: its strings in order, then the
NULL terminator. -/
def command_argv (command : blob_attr) : List argv_slot :=
  (blobmsg_for_each_attr command).map (fun cur => argv_slot.str (blobmsg_data cur)) ++
    [argv_slot.null]

/-- The calls of a child that launches `command` under the environment `env`. -/
def child_trace (sys : os) (env : blobmsg_list) (command : blob_attr) : List Event :=
  env.map (fun var => Event.putenv (blobmsg_data var)) ++
    [Event.execvp ((command_argv command).get? 0) (command_argv command)] ++
    (if sys.execvp_returns then [Event.exit 127] else [])

/-! ## lemmas on `instance_run` -/

theorem instance_run_count_eq (l : List blob_attr_leaf) (k : Nat) :
    instance_run_count l k = k + l.length := by
  induction l generalizing k with
  | nil => simp [instance_run_count]
  | cons c rest ih => simp [instance_run_count, ih]; omega

theorem argv_store_append (pre post : List argv_slot) (old v : argv_slot) :
    argv_store (pre ++ old :: post) pre.length v = some (pre ++ v :: post) := by
  simp [argv_store]

theorem instance_run_fill_eq (l : List blob_attr_leaf) (pre : List argv_slot) (m : Nat) :
    instance_run_fill l (pre ++ List.replicate (l.length + m) argv_slot.uninit) pre.length =
      some (pre ++ l.map (fun cur => argv_slot.str (blobmsg_data cur)) ++
              List.replicate m argv_slot.uninit, pre.length + l.length) := by
  induction l generalizing pre with
  | nil => simp [instance_run_fill]
  | cons c rest ih =>
    have hlen : (c :: rest).length + m = (rest.length + m) + 1 := by simp; omega
    rw [hlen, List.replicate_succ, instance_run_fill, argv_store_append]
    have h := ih (pre ++ [argv_slot.str (blobmsg_data c)])
    simp only [List.length_append, List.length_singleton, List.append_assoc,
      List.singleton_append] at h
    simp only [h, List.map_cons, List.length_cons, List.append_assoc, List.cons_append,
      List.nil_append, List.singleton_append]
    simp; omega

theorem instance_run_eq (sys : os) (in_ : service_instance) (command : blob_attr)
    (h : in_.command = some command) :
    instance_run sys in_ = child_trace sys in_.env command := by
  have hfill := instance_run_fill_eq (blobmsg_for_each_attr command) [] 1
  simp only [List.nil_append, List.length_nil, Nat.zero_add] at hfill
  have hstore := argv_store_append
    ((blobmsg_for_each_attr command).map (fun cur => argv_slot.str (blobmsg_data cur))) []
    argv_slot.uninit argv_slot.null
  simp only [List.length_map] at hstore
  have hcount : instance_run_count (blobmsg_for_each_attr command) 1 =
      (blobmsg_for_each_attr command).length + 1 := by
    rw [instance_run_count_eq]; omega
  simp only [instance_run, h, alloca, hcount, hfill]
  have hrep : List.replicate 1 argv_slot.uninit = [argv_slot.uninit] := rfl
  rw [hrep, hstore]
  rfl

/-! ## frame lemmas -/

theorem instance_start_timeout (sys : os) (in_ : service_instance) :
    (instance_start sys in_).inst.timeout = in_.timeout := by
  unfold instance_start
  split
  · rfl
  · dsimp only
    split
    · rfl
    · split
      · rfl
      · split <;> rfl

theorem instance_stop_inst (in_ : service_instance) (restart : Bool) :
    (instance_stop in_ restart).inst = in_ := by
  unfold instance_stop
  split <;> rfl

/-! ## C5, C7, C8: start and stop -/

/-- C5: on a valid instance with no pending process, `instance_start` with a
fork that returns a pid `p > 0` records `p`, registers the process with the
event loop (pending), leaves the restart flag false and changes no other
field; the only call issued is the fork and control returns. -/
theorem instance_start_fork_success (sys : os) (in_ : service_instance)
    (hvalid : in_.valid = true) (hidle : in_.proc.pending = false) (hpid : 0 < sys.fork) :
    instance_start sys in_ =
        ⟨{ in_ with restart := false, proc := ⟨true, sys.fork⟩ }, [Event.fork sys.fork], true⟩ ∧
      (instance_start sys in_).inst.proc.pid = sys.fork ∧
      (instance_start sys in_).inst.proc.pending = true ∧
      (instance_start sys in_).inst.restart = false ∧
      (instance_start sys in_).inst.name = in_.name ∧
      (instance_start sys in_).inst.config = in_.config ∧
      (instance_start sys in_).inst.command = in_.command ∧
      (instance_start sys in_).inst.env = in_.env ∧
      (instance_start sys in_).inst.data = in_.data ∧
      (instance_start sys in_).inst.valid = in_.valid ∧
      (instance_start sys in_).inst.timeout = in_.timeout := by
  have h1 : ¬ sys.fork < 0 := by omega
  have h2 : ¬ sys.fork = 0 := by omega
  have h : instance_start sys in_ =
      ⟨{ in_ with restart := false, proc := ⟨true, sys.fork⟩ }, [Event.fork sys.fork], true⟩ := by
    simp [instance_start, hvalid, hidle, h1, h2, uloop_process_add]
  rw [h]
  simp

theorem instance_start_fork_success_witness :
    instance_start ⟨5, false⟩ (construct config_a) =
        ⟨{ construct config_a with restart := false, proc := ⟨true, 5⟩ }, [Event.fork 5], true⟩ ∧
      (instance_start ⟨5, false⟩ (construct config_a)).inst.proc.pid = 5 ∧
      (instance_start ⟨5, false⟩ (construct config_a)).inst.proc.pending = true ∧
      (instance_start ⟨5, false⟩ (construct config_a)).inst.restart = false ∧
      (instance_start ⟨5, false⟩ (construct config_a)).inst.name = (construct config_a).name ∧
      (instance_start ⟨5, false⟩ (construct config_a)).inst.config = (construct config_a).config ∧
      (instance_start ⟨5, false⟩ (construct config_a)).inst.command =
        (construct config_a).command ∧
      (instance_start ⟨5, false⟩ (construct config_a)).inst.env = (construct config_a).env ∧
      (instance_start ⟨5, false⟩ (construct config_a)).inst.data = (construct config_a).data ∧
      (instance_start ⟨5, false⟩ (construct config_a)).inst.valid = (construct config_a).valid ∧
      (instance_start ⟨5, false⟩ (construct config_a)).inst.timeout =
        (construct config_a).timeout :=
  instance_start_fork_success ⟨5, false⟩ (construct config_a) (by decide) (by decide) (by decide)

/-- C7: on an instance whose process is pending, `instance_start` issues no
call at all (no fork) and returns the instance unchanged, whatever a fork would
have answered. -/
theorem instance_start_pending (sys : os) (in_ : service_instance)
    (hrun : in_.proc.pending = true) :
    instance_start sys in_ = ⟨in_, [], true⟩ ∧
      (instance_start sys in_).inst.proc = in_.proc ∧
      (instance_start sys in_).inst.restart = in_.restart ∧
      (∀ ret, Event.fork ret ∉ (instance_start sys in_).trace) := by
  have h : instance_start sys in_ = ⟨in_, [], true⟩ := by
    simp [instance_start, hrun]
  rw [h]
  simp

theorem instance_start_pending_witness :
    instance_start ⟨6, false⟩ (instance_start ⟨5, false⟩ (construct config_a)).inst =
        ⟨(instance_start ⟨5, false⟩ (construct config_a)).inst, [], true⟩ ∧
      (instance_start ⟨6, false⟩ (instance_start ⟨5, false⟩ (construct config_a)).inst).inst.proc =
        (instance_start ⟨5, false⟩ (construct config_a)).inst.proc ∧
      (instance_start ⟨6, false⟩
          (instance_start ⟨5, false⟩ (construct config_a)).inst).inst.restart =
        (instance_start ⟨5, false⟩ (construct config_a)).inst.restart ∧
      (∀ ret, Event.fork ret ∉
        (instance_start ⟨6, false⟩ (instance_start ⟨5, false⟩ (construct config_a)).inst).trace) :=
  instance_start_pending ⟨6, false⟩ (instance_start ⟨5, false⟩ (construct config_a)).inst
    (by decide)

/-- C8: on an instance with no pending process, `instance_stop` with either
value of `restart` sends no signal (issues no call) and returns the instance
unchanged. -/
theorem instance_stop_idle (in_ : service_instance) (restart : Bool)
    (hidle : in_.proc.pending = false) :
    instance_stop in_ restart = ⟨in_, [], true⟩ := by
  simp [instance_stop, hidle]

theorem instance_stop_idle_witness :
    instance_stop (construct config_a) true = ⟨construct config_a, [], true⟩ :=
  instance_stop_idle (construct config_a) true (by decide)

/-! ## C10: the exit callback -/

/-- C10: for an instance whose process is no longer pending and any status,
`instance_exit` leaves no timer armed; when the restart flag is clear it only
cancels the timer, issues no call and the instance has no process; when the
flag is set the outcome is that of `instance_start` on the instance with the
timer cancelled; the status has no influence. -/
theorem instance_exit_spec (sys : os) (in_ : service_instance) (ret : Int)
    (hidle : in_.proc.pending = false) :
    (instance_exit sys in_ ret).inst.timeout.pending = false ∧
      (in_.restart = false →
        instance_exit sys in_ ret = ⟨{ in_ with timeout := ⟨false⟩ }, [], true⟩ ∧
        (instance_exit sys in_ ret).inst.proc.pending = false) ∧
      (in_.restart = true →
        instance_exit sys in_ ret = instance_start sys { in_ with timeout := ⟨false⟩ }) ∧
      (∀ ret2 : Int, instance_exit sys in_ ret2 = instance_exit sys in_ ret) := by
  refine ⟨?_, ?_, ?_, ?_⟩
  · unfold instance_exit
    dsimp only
    split
    · rw [instance_start_timeout]; rfl
    · rfl
  · intro hr
    simp [instance_exit, hr, uloop_timeout_cancel, hidle]
  · intro hr
    simp [instance_exit, hr, uloop_timeout_cancel]
  · intro ret2
    rfl

theorem instance_exit_spec_witness :
    (instance_exit ⟨6, false⟩ stopped_a_updated 0).inst.timeout.pending = false ∧
      (stopped_a_updated.restart = false →
        instance_exit ⟨6, false⟩ stopped_a_updated 0 =
          ⟨{ stopped_a_updated with timeout := ⟨false⟩ }, [], true⟩ ∧
        (instance_exit ⟨6, false⟩ stopped_a_updated 0).inst.proc.pending = false) ∧
      (stopped_a_updated.restart = true →
        instance_exit ⟨6, false⟩ stopped_a_updated 0 =
          instance_start ⟨6, false⟩ { stopped_a_updated with timeout := ⟨false⟩ }) ∧
      (∀ ret2 : Int, instance_exit ⟨6, false⟩ stopped_a_updated ret2 =
        instance_exit ⟨6, false⟩ stopped_a_updated 0) :=
  instance_exit_spec ⟨6, false⟩ stopped_a_updated 0 (by decide)

/-! ## C6: start that launches nothing -/

/-- C6, as stated, fails: on the valid, stopped instance `stopped_a_updated`,
whose restart flag is set, a start whose fork fails launches nothing yet
clears the flag, so the instance is not the same after the call. -/
theorem instance_start_no_launch_counterexample :
    stopped_a_updated.valid = true ∧ stopped_a_updated.proc.pending = false ∧
      stopped_a_updated.restart = true ∧
      (instance_start ⟨-1, false⟩ stopped_a_updated).trace = [Event.fork (-1)] ∧
      (instance_start ⟨-1, false⟩ stopped_a_updated).inst.proc.pending = false ∧
      (instance_start ⟨-1, false⟩ stopped_a_updated).inst.restart = false ∧
      (instance_start ⟨-1, false⟩ stopped_a_updated).inst ≠ stopped_a_updated := by
  decide

/-- C6, amended: when a start on an instance with no pending process launches
nothing, because the instance is invalid or because the fork fails, the call
clears the restart flag and changes no other field; control returns, the
instance still has no process, the fork is attempted only when the instance is
valid, and an instance whose flag was already clear is left as it was. -/
theorem instance_start_no_launch (sys : os) (in_ : service_instance)
    (hidle : in_.proc.pending = false) (h : in_.valid = false ∨ sys.fork < 0) :
    (instance_start sys in_).inst = { in_ with restart := false } ∧
      (instance_start sys in_).returned = true ∧
      (instance_start sys in_).inst.proc = in_.proc ∧
      (instance_start sys in_).inst.proc.pending = false ∧
      (instance_start sys in_).trace = (if in_.valid then [Event.fork sys.fork] else []) ∧
      (in_.restart = false → (instance_start sys in_).inst = in_) := by
  have hflag : in_.restart = false → { in_ with restart := false } = in_ := by
    intro hr
    cases in_
    simp_all
  by_cases hv : in_.valid = true
  · have hf : sys.fork < 0 := by
      rcases h with h | h
      · rw [hv] at h; cases h
      · exact h
    have e : instance_start sys in_ =
        ⟨{ in_ with restart := false }, [Event.fork sys.fork], true⟩ := by
      simp [instance_start, hidle, hv, hf]
    rw [e]
    exact ⟨rfl, rfl, rfl, hidle, by simp [hv], hflag⟩
  · have hv2 : in_.valid = false := by simpa using hv
    have e : instance_start sys in_ = ⟨{ in_ with restart := false }, [], true⟩ := by
      simp [instance_start, hidle, hv2]
    rw [e]
    exact ⟨rfl, rfl, rfl, hidle, by simp [hv2], hflag⟩

theorem instance_start_no_launch_witness :
    (instance_start ⟨-1, false⟩ stopped_a_updated).inst =
        { stopped_a_updated with restart := false } ∧
      (instance_start ⟨-1, false⟩ stopped_a_updated).returned = true ∧
      (instance_start ⟨-1, false⟩ stopped_a_updated).inst.proc = stopped_a_updated.proc ∧
      (instance_start ⟨-1, false⟩ stopped_a_updated).inst.proc.pending = false ∧
      (instance_start ⟨-1, false⟩ stopped_a_updated).trace =
        (if stopped_a_updated.valid then [Event.fork (-1)] else []) ∧
      (stopped_a_updated.restart = false →
        (instance_start ⟨-1, false⟩ stopped_a_updated).inst = stopped_a_updated) :=
  instance_start_no_launch ⟨-1, false⟩ stopped_a_updated (by decide) (Or.inr (by decide))

/-! ## C1: restart on change -/

/-- C1: for a valid instance that is running, an update whose snapshot carries
a command `B` different from the stored one returns true, sends SIGTERM to the
running process, sets the restart flag and stores `B`, leaving the process
record as it was. When the exit of the old process is then delivered, start
runs: in the supervisor (fork answers a pid > 0) the instance is running again
under the new pid with the restart flag clear and `B` stored, and in the forked
child (fork answers 0) the calls are those of a launch of `B` under the
snapshot's environment, and control never returns. -/
theorem restart_on_change (in_ in_new : service_instance) (B : blob_attr)
    (hvalid : in_.valid = true) (hrun : in_.proc.pending = true)
    (hB : in_new.command = some B) (hne : in_.command ≠ some B) :
    (instance_update in_ in_new).changed = true ∧
      (instance_update in_ in_new).inst.restart = true ∧
      (instance_update in_ in_new).inst.command = some B ∧
      (instance_update in_ in_new).inst.proc = in_.proc ∧
      (instance_update in_ in_new).trace = [Event.kill in_.proc.pid SIGTERM] ∧
      (∀ (sys : os) (ret : Int), 0 < sys.fork →
        (uloop_deliver_exit sys (instance_update in_ in_new).inst ret).returned = true ∧
        (uloop_deliver_exit sys (instance_update in_ in_new).inst ret).trace =
          [Event.fork sys.fork] ∧
        (uloop_deliver_exit sys (instance_update in_ in_new).inst ret).inst.proc =
          ⟨true, sys.fork⟩ ∧
        (uloop_deliver_exit sys (instance_update in_ in_new).inst ret).inst.restart = false ∧
        (uloop_deliver_exit sys (instance_update in_ in_new).inst ret).inst.command = some B) ∧
      (∀ (sys : os) (ret : Int), sys.fork = 0 →
        (uloop_deliver_exit sys (instance_update in_ in_new).inst ret).returned = false ∧
        (uloop_deliver_exit sys (instance_update in_ in_new).inst ret).trace =
          Event.fork 0 :: child_trace sys in_new.env B) := by
  have hch : instance_config_changed in_ in_new = true := by
    simp [instance_config_changed, hvalid, blob_attr_equal, hB, hne]
  have hu : instance_update in_ in_new =
      ⟨true,
        { in_ with config := in_new.config, restart := true, env := in_new.env,
                   data := in_new.data, command := some B, name := in_new.name },
        { in_new with env := [], data := [] },
        [Event.kill in_.proc.pid SIGTERM]⟩ := by
    simp [instance_update, hch, instance_stop, hrun, instance_config_move,
      instance_config_cleanup, blobmsg_list_move, blobmsg_list_free, hB]
  rw [hu]
  refine ⟨rfl, rfl, rfl, rfl, rfl, ?_, ?_⟩
  · intro sys ret hpid
    have h1 : ¬ sys.fork < 0 := by omega
    have h2 : ¬ sys.fork = 0 := by omega
    simp [uloop_deliver_exit, instance_exit, instance_start, uloop_process_delete,
      uloop_process_add, uloop_timeout_cancel, hvalid, h1, h2]
  · intro sys ret hpid
    have hrunB := instance_run_eq sys
      { in_ with config := in_new.config, restart := false, env := in_new.env,
                 data := in_new.data, command := some B, name := in_new.name,
                 proc := ⟨false, in_.proc.pid⟩, timeout := ⟨false⟩ } B rfl
    simp only [hvalid] at hrunB
    simp [uloop_deliver_exit, instance_exit, instance_start, uloop_process_delete,
      uloop_timeout_cancel, hvalid, hpid, hrunB]

theorem restart_on_change_witness :
    (instance_update running_a (construct config_b)).changed = true ∧
      (instance_update running_a (construct config_b)).inst.restart = true ∧
      (instance_update running_a (construct config_b)).inst.command = some cmd_b ∧
      (instance_update running_a (construct config_b)).inst.proc = running_a.proc ∧
      (instance_update running_a (construct config_b)).trace =
        [Event.kill running_a.proc.pid SIGTERM] ∧
      (∀ (sys : os) (ret : Int), 0 < sys.fork →
        (uloop_deliver_exit sys (instance_update running_a (construct config_b)).inst
          ret).returned = true ∧
        (uloop_deliver_exit sys (instance_update running_a (construct config_b)).inst
          ret).trace = [Event.fork sys.fork] ∧
        (uloop_deliver_exit sys (instance_update running_a (construct config_b)).inst
          ret).inst.proc = ⟨true, sys.fork⟩ ∧
        (uloop_deliver_exit sys (instance_update running_a (construct config_b)).inst
          ret).inst.restart = false ∧
        (uloop_deliver_exit sys (instance_update running_a (construct config_b)).inst
          ret).inst.command = some cmd_b) ∧
      (∀ (sys : os) (ret : Int), sys.fork = 0 →
        (uloop_deliver_exit sys (instance_update running_a (construct config_b)).inst
          ret).returned = false ∧
        (uloop_deliver_exit sys (instance_update running_a (construct config_b)).inst
          ret).trace = Event.fork 0 :: child_trace sys (construct config_b).env cmd_b) :=
  restart_on_change running_a (construct config_b) cmd_b (by decide) (by decide) (by decide)
    (by decide)

/-! ## reachability of the sample states, and the timer -/

theorem reachable_running_a : Reachable running_a :=
  Reachable.start ⟨5, false⟩ (construct config_a) (Reachable.construct config_a) (by decide)

theorem reachable_running_a_updated : Reachable running_a_updated :=
  Reachable.update running_a config_b reachable_running_a

theorem instance_config_parse_frame (in_ : service_instance) :
    (instance_config_parse in_).2.name = in_.name ∧
      (instance_config_parse in_).2.config = in_.config ∧
      (instance_config_parse in_).2.valid = in_.valid ∧
      (instance_config_parse in_).2.restart = in_.restart ∧
      (instance_config_parse in_).2.proc = in_.proc ∧
      (instance_config_parse in_).2.timeout = in_.timeout := by
  unfold instance_config_parse
  dsimp only
  repeat (first | (exact ⟨rfl, rfl, rfl, rfl, rfl, rfl⟩) | split)

theorem instance_init_frame (in_ : service_instance) (config : blob_attr_config) :
    (instance_init in_ config).name = blobmsg_name config ∧
      (instance_init in_ config).config = config ∧
      (instance_init in_ config).restart = in_.restart ∧
      (instance_init in_ config).proc = in_.proc ∧
      (instance_init in_ config).timeout = in_.timeout := by
  unfold instance_init
  dsimp only
  have h := instance_config_parse_frame
    { in_ with name := blobmsg_name config, config := config,
               env := blobmsg_list_simple_init, data := blobmsg_list_simple_init }
  obtain ⟨h1, h2, _, h4, h5, h6⟩ := h
  exact ⟨h1, h2, h4, h5, h6⟩

theorem construct_timeout (config : blob_attr_config) :
    (construct config).timeout.pending = false := by
  unfold construct
  rw [(instance_init_frame service_instance_zero config).2.2.2.2]
  rfl

theorem instance_update_timeout (in_ in_new : service_instance) :
    (instance_update in_ in_new).inst.timeout = in_.timeout := by
  unfold instance_update
  dsimp only
  split
  · rfl
  · simp [instance_config_move, instance_config_cleanup, instance_stop_inst]

theorem instance_exit_timeout (sys : os) (in_ : service_instance) (ret : Int) :
    (instance_exit sys in_ ret).inst.timeout.pending = false := by
  unfold instance_exit
  dsimp only
  split
  · rw [instance_start_timeout]; rfl
  · rfl

/-- No reachable instance has its kill timer armed: nothing in the source arms
it. -/
theorem reachable_timeout_idle (in_ : service_instance) (h : Reachable in_) :
    in_.timeout.pending = false := by
  induction h with
  | construct config => exact construct_timeout config
  | start sys in_ _ _ ih => rw [instance_start_timeout]; exact ih
  | stop in_ restart _ ih => rw [instance_stop_inst]; exact ih
  | update in_ config _ ih => rw [instance_update_timeout]; exact ih
  | exit sys in_ ret _ _ _ _ => exact instance_exit_timeout _ _ _
  | timeout sys in_ _ _ _ _ => exact instance_exit_timeout _ _ _

/-! ## C2, C3, C4, C9: where the source departs from the specification -/

/-- C2: evaluation of `instance_stop` on two reachable running instances. On
`running_a_updated`, whose restart flag is set, `instance_stop` with
`restart = false` leaves the flag set; on `running_a`, whose flag is clear,
`instance_stop` with `restart = true` leaves it clear: the argument is never
read. -/
theorem instance_stop_ignores_restart :
    Reachable running_a_updated ∧ running_a_updated.proc.pending = true ∧
      running_a_updated.restart = true ∧
      (instance_stop running_a_updated false).inst.restart = true ∧
      Reachable running_a ∧ running_a.proc.pending = true ∧
      running_a.restart = false ∧
      (instance_stop running_a true).inst.restart = false :=
  ⟨reachable_running_a_updated, by decide, by decide, by decide,
    reachable_running_a, by decide, by decide, by decide⟩

/-- C3: evaluation of `instance_stop` on the reachable running instance
`running_a` (pid 5): SIGTERM is sent to pid 5 and no kill timer is armed
afterwards, with either value of `restart`. -/
theorem instance_stop_arms_no_timer :
    Reachable running_a ∧ running_a.proc.pending = true ∧
      (instance_stop running_a false).trace = [Event.kill 5 SIGTERM] ∧
      (instance_stop running_a false).inst.timeout.pending = false ∧
      (instance_stop running_a true).trace = [Event.kill 5 SIGTERM] ∧
      (instance_stop running_a true).inst.timeout.pending = false :=
  ⟨reachable_running_a, by decide, by decide, by decide, by decide, by decide⟩

/-- C4: evaluation on an instance constructed from an entry without a command
and updated with the valid snapshot of `config_a`: the update reports a change
and stores the new command, yet the instance is still invalid, and a start
whose fork would answer pid 5 forks nothing and leaves no process. -/
theorem update_keeps_invalid :
    (construct config_empty).valid = false ∧ (construct config_a).valid = true ∧
      (instance_update (construct config_empty) (construct config_a)).changed = true ∧
      invalid_updated.command = some cmd_a ∧
      invalid_updated.valid = false ∧
      (instance_start ⟨5, false⟩ invalid_updated).trace = [] ∧
      (instance_start ⟨5, false⟩ invalid_updated).inst.proc.pending = false := by
  decide

/-- C9: evaluation on the reachable running instance `running_a_updated`
(started, then updated to `config_b`): after `instance_stop` with
`restart = false` and the delivery of the exit, a fork is issued and the
instance is running again under pid 6, as the dump reports; no timer is armed.
On `running_a` (constructed and started only) the same two steps leave the
instance without a process, as in the scenario of the specification. -/
theorem stop_then_exit_restarts :
    Reachable running_a_updated ∧ running_a_updated.proc.pending = true ∧
      (uloop_deliver_exit ⟨6, false⟩ (instance_stop running_a_updated false).inst 0).trace =
        [Event.fork 6] ∧
      (uloop_deliver_exit ⟨6, false⟩ (instance_stop running_a_updated false).inst 0).inst.proc =
        ⟨true, 6⟩ ∧
      (uloop_deliver_exit ⟨6, false⟩
        (instance_stop running_a_updated false).inst 0).inst.timeout.pending = false ∧
      instance_dump []
          (uloop_deliver_exit ⟨6, false⟩ (instance_stop running_a_updated false).inst 0).inst =
        some ([⟨"inst1", [blobmsg_field.u8 "running" 1, blobmsg_field.u32 "pid" 6,
                          blobmsg_field.blob cmd_b]⟩],
          (uloop_deliver_exit ⟨6, false⟩ (instance_stop running_a_updated false).inst 0).inst) ∧
      (uloop_deliver_exit ⟨6, false⟩ (instance_stop running_a false).inst 0).trace = [] ∧
      instance_dump []
          (uloop_deliver_exit ⟨6, false⟩ (instance_stop running_a false).inst 0).inst =
        some ([⟨"inst1", [blobmsg_field.u8 "running" 0, blobmsg_field.blob cmd_a]⟩],
          (uloop_deliver_exit ⟨6, false⟩ (instance_stop running_a false).inst 0).inst) :=
  ⟨reachable_running_a_updated, by decide, by decide, by decide, by decide, by decide,
    by decide, by decide⟩

/-! ## C11: the timer callback -/

/-- C11: on a running instance `instance_timeout` sends SIGKILL to the tracked
pid as its first call, takes the process off the watch and then does exactly
what `instance_exit` does with status -1 on the unwatched instance: same
instance afterwards (which is also what the delivery of an exit with status -1
leaves), same further calls. With the restart flag clear the instance ends
with no process and no timer and SIGKILL is the only call; with the flag set
it ends as `instance_start` leaves the unwatched, timer-cancelled instance. -/
theorem instance_timeout_converges (sys : os) (in_ : service_instance)
    (_hrun : in_.proc.pending = true) :
    (instance_timeout sys in_).trace =
        Event.kill in_.proc.pid SIGKILL ::
          (instance_exit sys { in_ with proc := ⟨false, in_.proc.pid⟩ } (-1)).trace ∧
      (instance_timeout sys in_).inst =
        (instance_exit sys { in_ with proc := ⟨false, in_.proc.pid⟩ } (-1)).inst ∧
      (instance_timeout sys in_).returned =
        (instance_exit sys { in_ with proc := ⟨false, in_.proc.pid⟩ } (-1)).returned ∧
      (instance_timeout sys in_).inst = (uloop_deliver_exit sys in_ (-1)).inst ∧
      (in_.restart = false →
        instance_timeout sys in_ =
          ⟨{ in_ with proc := ⟨false, in_.proc.pid⟩, timeout := ⟨false⟩ },
            [Event.kill in_.proc.pid SIGKILL], true⟩) ∧
      (in_.restart = true →
        (instance_timeout sys in_).inst =
          (instance_start sys
            { in_ with proc := ⟨false, in_.proc.pid⟩, timeout := ⟨false⟩ }).inst ∧
        (instance_timeout sys in_).trace =
          Event.kill in_.proc.pid SIGKILL ::
            (instance_start sys
              { in_ with proc := ⟨false, in_.proc.pid⟩, timeout := ⟨false⟩ }).trace) := by
  refine ⟨rfl, rfl, rfl, rfl, ?_, ?_⟩
  · intro hr
    simp [instance_timeout, instance_exit, hr, uloop_process_delete, uloop_timeout_cancel]
  · intro hr
    simp [instance_timeout, instance_exit, hr, uloop_process_delete, uloop_timeout_cancel]

theorem instance_timeout_converges_witness :
    (instance_timeout ⟨6, false⟩ running_a_updated).trace =
        Event.kill running_a_updated.proc.pid SIGKILL ::
          (instance_exit ⟨6, false⟩
            { running_a_updated with proc := ⟨false, running_a_updated.proc.pid⟩ } (-1)).trace ∧
      (instance_timeout ⟨6, false⟩ running_a_updated).inst =
        (instance_exit ⟨6, false⟩
          { running_a_updated with proc := ⟨false, running_a_updated.proc.pid⟩ } (-1)).inst ∧
      (instance_timeout ⟨6, false⟩ running_a_updated).returned =
        (instance_exit ⟨6, false⟩
          { running_a_updated with proc := ⟨false, running_a_updated.proc.pid⟩ } (-1)).returned ∧
      (instance_timeout ⟨6, false⟩ running_a_updated).inst =
        (uloop_deliver_exit ⟨6, false⟩ running_a_updated (-1)).inst ∧
      (running_a_updated.restart = false →
        instance_timeout ⟨6, false⟩ running_a_updated =
          ⟨{ running_a_updated with
              proc := ⟨false, running_a_updated.proc.pid⟩, timeout := ⟨false⟩ },
            [Event.kill running_a_updated.proc.pid SIGKILL], true⟩) ∧
      (running_a_updated.restart = true →
        (instance_timeout ⟨6, false⟩ running_a_updated).inst =
          (instance_start ⟨6, false⟩
            { running_a_updated with
                proc := ⟨false, running_a_updated.proc.pid⟩, timeout := ⟨false⟩ }).inst ∧
        (instance_timeout ⟨6, false⟩ running_a_updated).trace =
          Event.kill running_a_updated.proc.pid SIGKILL ::
            (instance_start ⟨6, false⟩
              { running_a_updated with
                  proc := ⟨false, running_a_updated.proc.pid⟩, timeout := ⟨false⟩ }).trace) :=
  instance_timeout_converges ⟨6, false⟩ running_a_updated (by decide)

/-! ## C12, C13, C14: update -/

theorem blobmsg_list_equal_iff (l1 l2 : blobmsg_list) :
    blobmsg_list_equal l1 l2 = true ↔ l1.Perm l2 := by
  simp [blobmsg_list_equal, List.isPerm_iff]

theorem instance_config_changed_iff (in_ in_new : service_instance) :
    instance_config_changed in_ in_new = true ↔
      (in_.valid = false ∨ in_.command ≠ in_new.command ∨
        ¬ in_.env.Perm in_new.env ∨ ¬ in_.data.Perm in_new.data) := by
  have he := blobmsg_list_equal_iff in_.env in_new.env
  have hd := blobmsg_list_equal_iff in_.data in_new.data
  unfold instance_config_changed blob_attr_equal
  cases hv : in_.valid <;> cases hE : blobmsg_list_equal in_.env in_new.env <;>
    cases hD : blobmsg_list_equal in_.data in_new.data <;>
    by_cases hc : in_.command = in_new.command <;>
    simp_all

theorem instance_update_changed (in_ in_new : service_instance) :
    (instance_update in_ in_new).changed = instance_config_changed in_ in_new := by
  unfold instance_update
  dsimp only
  cases instance_config_changed in_ in_new <;> rfl

/-- C12: for a valid instance and a snapshot whose command is equal to the
stored one and whose environment and data hold the same entries (in any
order), `instance_update` returns false, issues no call, leaves the snapshot as
it was and returns the instance with `config` replaced by the snapshot's and
every other field unchanged. -/
theorem instance_update_unchanged (in_ in_new : service_instance)
    (hvalid : in_.valid = true) (hcmd : in_.command = in_new.command)
    (henv : in_.env.Perm in_new.env) (hdata : in_.data.Perm in_new.data) :
    instance_update in_ in_new =
        ⟨false, { in_ with config := in_new.config }, in_new, []⟩ ∧
      (instance_update in_ in_new).changed = false ∧
      (instance_update in_ in_new).trace = [] ∧
      (instance_update in_ in_new).inst.config = in_new.config ∧
      (instance_update in_ in_new).inst.restart = in_.restart ∧
      (instance_update in_ in_new).inst.proc = in_.proc ∧
      (instance_update in_ in_new).inst.timeout = in_.timeout ∧
      (instance_update in_ in_new).inst.command = in_.command ∧
      (instance_update in_ in_new).inst.env = in_.env ∧
      (instance_update in_ in_new).inst.data = in_.data ∧
      (instance_update in_ in_new).inst.name = in_.name ∧
      (instance_update in_ in_new).inst.valid = in_.valid ∧
      (instance_update in_ in_new).src = in_new := by
  have hch : instance_config_changed in_ in_new = false := by
    cases h : instance_config_changed in_ in_new with
    | false => rfl
    | true =>
      rcases (instance_config_changed_iff in_ in_new).1 h with h1 | h1 | h1 | h1
      · rw [hvalid] at h1; cases h1
      · exact absurd hcmd h1
      · exact absurd henv h1
      · exact absurd hdata h1
  have e : instance_update in_ in_new =
      ⟨false, { in_ with config := in_new.config }, in_new, []⟩ := by
    simp [instance_update, hch]
  rw [e]
  simp

theorem instance_update_unchanged_witness :
    instance_update running_a_env (construct config_a_env_ba) =
        ⟨false, { running_a_env with config := (construct config_a_env_ba).config },
          construct config_a_env_ba, []⟩ ∧
      (instance_update running_a_env (construct config_a_env_ba)).changed = false ∧
      (instance_update running_a_env (construct config_a_env_ba)).trace = [] ∧
      (instance_update running_a_env (construct config_a_env_ba)).inst.config =
        (construct config_a_env_ba).config ∧
      (instance_update running_a_env (construct config_a_env_ba)).inst.restart =
        running_a_env.restart ∧
      (instance_update running_a_env (construct config_a_env_ba)).inst.proc =
        running_a_env.proc ∧
      (instance_update running_a_env (construct config_a_env_ba)).inst.timeout =
        running_a_env.timeout ∧
      (instance_update running_a_env (construct config_a_env_ba)).inst.command =
        running_a_env.command ∧
      (instance_update running_a_env (construct config_a_env_ba)).inst.env =
        running_a_env.env ∧
      (instance_update running_a_env (construct config_a_env_ba)).inst.data =
        running_a_env.data ∧
      (instance_update running_a_env (construct config_a_env_ba)).inst.name =
        running_a_env.name ∧
      (instance_update running_a_env (construct config_a_env_ba)).inst.valid =
        running_a_env.valid ∧
      (instance_update running_a_env (construct config_a_env_ba)).src =
        construct config_a_env_ba :=
  instance_update_unchanged running_a_env (construct config_a_env_ba) (by decide) (by decide)
    (by decide) (by decide)

/-- C13: the value `instance_update` returns is true exactly when, on the
state before the call, the instance is invalid, or its command differs from the
snapshot's, or its environment or its data does not hold the same entries as
the snapshot's; an invalid instance therefore gets true whatever the snapshot,
as on the first update of the instance constructed from an entry without a
command with a snapshot of that same entry. -/
theorem instance_update_changed_iff (in_ in_new : service_instance) :
    ((instance_update in_ in_new).changed = true ↔
        (in_.valid = false ∨ in_.command ≠ in_new.command ∨
          ¬ in_.env.Perm in_new.env ∨ ¬ in_.data.Perm in_new.data)) ∧
      (instance_update in_ in_new).changed =
        (!in_.valid || !blob_attr_equal in_.command in_new.command ||
          !blobmsg_list_equal in_.env in_new.env ||
          !blobmsg_list_equal in_.data in_new.data) ∧
      (instance_update { in_ with valid := false } in_new).changed = true ∧
      (construct config_empty).valid = false ∧
      (instance_update (construct config_empty) (construct config_empty)).changed = true := by
  refine ⟨?_, ?_, ?_, by decide, by decide⟩
  · rw [instance_update_changed]
    exact instance_config_changed_iff in_ in_new
  · rw [instance_update_changed]
    unfold instance_config_changed
    cases in_.valid <;> cases blob_attr_equal in_.command in_new.command <;>
      cases blobmsg_list_equal in_.env in_new.env <;>
      cases blobmsg_list_equal in_.data in_new.data <;> rfl
  · rw [instance_update_changed]
    simp [instance_config_changed]

theorem instance_config_move_eq (in_ in_src : service_instance) :
    instance_config_move in_ in_src =
      ({ in_ with env := in_src.env, data := in_src.data, command := in_src.command,
                  name := in_src.name },
       { in_src with env := [], data := [] }) := by
  simp [instance_config_move, instance_config_cleanup, blobmsg_list_move]

/-- C14: when `instance_update` returns true, the instance afterwards has the
snapshot's command, environment, data, name and config, its restart flag is
set and its process record, timer and validity are those from before the call;
the snapshot is left with an empty environment and empty data; the only call
issued is the SIGTERM of `instance_stop` when a process is pending. The old
environment and data are released before the transfer: the cleanup empties
both, and the result of the move does not depend on what they held. -/
theorem instance_update_changed_spec (in_ in_new : service_instance)
    (hch : (instance_update in_ in_new).changed = true) :
    (instance_update in_ in_new).inst =
        { in_ with config := in_new.config, restart := true, env := in_new.env,
                   data := in_new.data, command := in_new.command, name := in_new.name } ∧
      (instance_update in_ in_new).src = { in_new with env := [], data := [] } ∧
      (instance_update in_ in_new).inst.proc = in_.proc ∧
      (instance_update in_ in_new).inst.restart = true ∧
      (instance_update in_ in_new).trace =
        (if in_.proc.pending then [Event.kill in_.proc.pid SIGTERM] else []) ∧
      (instance_config_cleanup in_).env = [] ∧ (instance_config_cleanup in_).data = [] ∧
      (∀ e d : blobmsg_list,
        instance_config_move { in_ with env := e, data := d } in_new =
          instance_config_move in_ in_new) := by
  rw [instance_update_changed] at hch
  have e : instance_update in_ in_new =
      ⟨true,
        { in_ with config := in_new.config, restart := true, env := in_new.env,
                   data := in_new.data, command := in_new.command, name := in_new.name },
        { in_new with env := [], data := [] },
        (if in_.proc.pending then [Event.kill in_.proc.pid SIGTERM] else [])⟩ := by
    unfold instance_update
    simp only [hch, instance_config_move_eq, instance_stop_inst]
    cases hp : in_.proc.pending <;> simp [instance_stop, hp]
  rw [e]
  refine ⟨rfl, rfl, rfl, rfl, rfl, rfl, rfl, ?_⟩
  intro e d
  simp [instance_config_move_eq]

theorem instance_update_changed_spec_witness :
    (instance_update running_a_env (construct config_b)).inst =
        { running_a_env with
            config := (construct config_b).config, restart := true,
            env := (construct config_b).env, data := (construct config_b).data,
            command := (construct config_b).command, name := (construct config_b).name } ∧
      (instance_update running_a_env (construct config_b)).src =
        { construct config_b with env := [], data := [] } ∧
      (instance_update running_a_env (construct config_b)).inst.proc = running_a_env.proc ∧
      (instance_update running_a_env (construct config_b)).inst.restart = true ∧
      (instance_update running_a_env (construct config_b)).trace =
        (if running_a_env.proc.pending then [Event.kill running_a_env.proc.pid SIGTERM]
          else []) ∧
      (instance_config_cleanup running_a_env).env = [] ∧
      (instance_config_cleanup running_a_env).data = [] ∧
      (∀ e d : blobmsg_list,
        instance_config_move { running_a_env with env := e, data := d } (construct config_b) =
          instance_config_move running_a_env (construct config_b)) :=
  instance_update_changed_spec running_a_env (construct config_b) (by decide)

/-! ## C15, C16: validity over the reachable states -/

theorem reachable_any (in_ : service_instance) (h : Reachable in_) : ReachableAny in_ := by
  induction h with
  | construct config => exact ReachableAny.construct config
  | start sys in_ _ _ ih => exact ReachableAny.start sys in_ ih
  | stop in_ restart _ ih => exact ReachableAny.stop in_ restart ih
  | update in_ config _ ih => exact ReachableAny.update in_ config ih
  | exit sys in_ ret _ _ _ ih => exact ReachableAny.exit sys in_ ret ih
  | timeout sys in_ _ _ _ ih => exact ReachableAny.timeout sys in_ ih

theorem instance_start_valid (sys : os) (in_ : service_instance) :
    (instance_start sys in_).inst.valid = in_.valid := by
  unfold instance_start
  split
  · rfl
  · dsimp only
    split
    · rfl
    · split
      · rfl
      · split <;> rfl

theorem instance_start_invalid_proc (sys : os) (in_ : service_instance)
    (h : in_.valid = false) : (instance_start sys in_).inst.proc = in_.proc := by
  unfold instance_start
  split
  · rfl
  · simp [h]

theorem instance_exit_valid (sys : os) (in_ : service_instance) (ret : Int) :
    (instance_exit sys in_ ret).inst.valid = in_.valid := by
  unfold instance_exit
  dsimp only
  split
  · rw [instance_start_valid]
  · rfl

theorem instance_exit_invalid_proc (sys : os) (in_ : service_instance) (ret : Int)
    (h : in_.valid = false) : (instance_exit sys in_ ret).inst.proc = in_.proc := by
  unfold instance_exit
  dsimp only
  split
  · exact instance_start_invalid_proc sys
      { in_ with timeout := uloop_timeout_cancel in_.timeout } h
  · rfl

theorem instance_update_valid_proc (in_ in_new : service_instance) :
    (instance_update in_ in_new).inst.valid = in_.valid ∧
      (instance_update in_ in_new).inst.proc = in_.proc := by
  unfold instance_update
  dsimp only
  split
  · exact ⟨rfl, rfl⟩
  · simp [instance_config_move_eq, instance_stop_inst]

theorem construct_proc (config : blob_attr_config) :
    (construct config).proc = ⟨false, 0⟩ := by
  unfold construct
  rw [(instance_init_frame service_instance_zero config).2.2.2.1]
  rfl

/-- C15: in every state obtained from `construct` by any sequence of start,
stop, update with a constructed snapshot, exit callbacks and timer callbacks,
whatever `fork` answers and whenever the callbacks run, an invalid instance
tracks no process: it is not pending and no pid was ever recorded. -/
theorem invalid_never_started (in_ : service_instance) (h : ReachableAny in_)
    (hinv : in_.valid = false) :
    in_.proc.pending = false ∧ in_.proc.pid = 0 := by
  have key : in_.valid = false → in_.proc = ⟨false, 0⟩ := by
    clear hinv
    induction h with
    | construct config => intro _; exact construct_proc config
    | start sys in_ _ ih =>
      intro hv
      rw [instance_start_valid] at hv
      rw [instance_start_invalid_proc _ _ hv]
      exact ih hv
    | stop in_ restart _ ih =>
      intro hv
      rw [instance_stop_inst] at hv ⊢
      exact ih hv
    | update in_ config _ ih =>
      intro hv
      rw [(instance_update_valid_proc _ _).1] at hv
      rw [(instance_update_valid_proc _ _).2]
      exact ih hv
    | exit sys in_ ret _ ih =>
      intro hv
      unfold uloop_deliver_exit at hv ⊢
      rw [instance_exit_valid] at hv
      rw [instance_exit_invalid_proc _ _ _ hv]
      have hp := ih hv
      simp [uloop_process_delete, hp]
    | timeout sys in_ _ ih =>
      intro hv
      unfold uloop_deliver_timeout instance_timeout at hv ⊢
      dsimp only at hv ⊢
      rw [instance_exit_valid] at hv
      rw [instance_exit_invalid_proc _ _ _ hv]
      have hp := ih hv
      simp [uloop_process_delete, hp]
  rw [key hinv]
  exact ⟨rfl, rfl⟩

theorem invalid_never_started_witness :
    (instance_start ⟨5, false⟩ invalid_updated).inst.proc.pending = false ∧
      (instance_start ⟨5, false⟩ invalid_updated).inst.proc.pid = 0 :=
  invalid_never_started (instance_start ⟨5, false⟩ invalid_updated).inst
    (ReachableAny.start ⟨5, false⟩ invalid_updated
      (ReachableAny.update (construct config_empty) config_a
        (ReachableAny.construct config_empty)))
    (by decide)

/-- C16: evaluation on the reachable instance `valid_updated_empty`,
constructed from the valid `config_a` and updated with the snapshot of an entry
without a command (a snapshot that is itself invalid): the update reports a
change and stores the snapshot's absent command, yet the instance is still
valid; a start forks, and the child faults on the absent command. -/
theorem valid_without_command :
    Reachable valid_updated_empty ∧
      (construct config_a).valid = true ∧ (construct config_empty).valid = false ∧
      (instance_update (construct config_a) (construct config_empty)).changed = true ∧
      valid_updated_empty.valid = true ∧
      valid_updated_empty.command = none ∧
      (instance_start ⟨5, false⟩ valid_updated_empty).inst.proc = ⟨true, 5⟩ ∧
      (instance_start ⟨0, false⟩ valid_updated_empty).trace = [Event.fork 0, Event.fault] :=
  ⟨Reachable.update (construct config_a) config_empty (Reachable.construct config_a),
    by decide, by decide, by decide, by decide, by decide, by decide, by decide⟩

/-! ## C17: construction -/

theorem blobmsg_parse_instance_attr (config : blob_attr_config) :
    blobmsg_parse instance_attr config INSTANCE_ATTR_COMMAND =
        config.attrs.find? (fun a => a.type == BLOBMSG_TYPE_ARRAY && a.name == "command") ∧
      blobmsg_parse instance_attr config INSTANCE_ATTR_ENV =
        config.attrs.find? (fun a => a.type == BLOBMSG_TYPE_TABLE && a.name == "env") ∧
      blobmsg_parse instance_attr config INSTANCE_ATTR_DATA =
        config.attrs.find? (fun a => a.type == BLOBMSG_TYPE_TABLE && a.name == "data") := by
  refine ⟨?_, ?_, ?_⟩ <;>
    simp [blobmsg_parse, instance_attr, INSTANCE_ATTR_COMMAND, INSTANCE_ATTR_ENV,
      INSTANCE_ATTR_DATA, BLOBMSG_TYPE_UNSPEC, BLOBMSG_TYPE_ARRAY, BLOBMSG_TYPE_TABLE]

theorem blobmsg_check_attr_list_parsed (config : blob_attr_config) (i : Nat)
    (cur : blob_attr) (h : blobmsg_parse instance_attr config i = some cur) :
    (blobmsg_check_attr_list cur BLOBMSG_TYPE_STRING = true ↔
      ∀ e ∈ cur.children, e.type = BLOBMSG_TYPE_STRING) := by
  have htype : cur.type = BLOBMSG_TYPE_ARRAY ∨ cur.type = BLOBMSG_TYPE_TABLE := by
    unfold blobmsg_parse at h
    split at h
    · cases h
    · rename_i p hp
      have hfound := List.find?_some h
      have hmem : p ∈ instance_attr := List.get?_mem hp
      simp only [instance_attr, List.mem_cons, List.mem_singleton, List.not_mem_nil,
        or_false] at hmem
      rcases hmem with rfl | rfl | rfl <;>
        simp [BLOBMSG_TYPE_UNSPEC, BLOBMSG_TYPE_ARRAY, BLOBMSG_TYPE_TABLE] at hfound ⊢ <;>
        simp [hfound.1]
  unfold blobmsg_check_attr_list blobmsg_for_each_attr
  rcases htype with ht | ht <;> simp [ht]

theorem instance_config_parse_verdict (in_ : service_instance) :
    ((instance_config_parse in_).1 = true ↔
      ∃ cur, blobmsg_parse instance_attr in_.config INSTANCE_ATTR_COMMAND = some cur ∧
        blobmsg_check_attr_list cur BLOBMSG_TYPE_STRING = true ∧
        cur.children ≠ [] ∧
        (∀ env, blobmsg_parse instance_attr in_.config INSTANCE_ATTR_ENV = some env →
          blobmsg_check_attr_list env BLOBMSG_TYPE_STRING = true) ∧
        (∀ data, blobmsg_parse instance_attr in_.config INSTANCE_ATTR_DATA = some data →
          blobmsg_check_attr_list data BLOBMSG_TYPE_STRING = true)) := by
  unfold instance_config_parse
  dsimp only
  cases h0 : blobmsg_parse instance_attr in_.config INSTANCE_ATTR_COMMAND with
  | none => simp
  | some cur =>
    cases hc : blobmsg_check_attr_list cur BLOBMSG_TYPE_STRING with
    | false => simp [hc]
    | true =>
      cases hk : cur.children with
      | nil => simp [blobmsg_for_each_attr, hk, hc]
      | cons c rest =>
        cases h1 : blobmsg_parse instance_attr in_.config INSTANCE_ATTR_ENV with
        | none =>
          cases h2 : blobmsg_parse instance_attr in_.config INSTANCE_ATTR_DATA with
          | none => simp [blobmsg_for_each_attr, hk, hc]
          | some d =>
            cases hd : blobmsg_check_attr_list d BLOBMSG_TYPE_STRING <;>
              simp [blobmsg_for_each_attr, hk, hc, hd]
        | some e =>
          cases he : blobmsg_check_attr_list e BLOBMSG_TYPE_STRING with
          | false => simp [blobmsg_for_each_attr, hk, hc, he]
          | true =>
            cases h2 : blobmsg_parse instance_attr in_.config INSTANCE_ATTR_DATA with
            | none => simp [blobmsg_for_each_attr, hk, hc, he]
            | some d =>
              cases hd : blobmsg_check_attr_list d BLOBMSG_TYPE_STRING <;>
                simp [blobmsg_for_each_attr, hk, hc, he, hd]

theorem construct_valid (config : blob_attr_config) :
    (construct config).valid =
      (instance_config_parse
        { service_instance_zero with
            name := blobmsg_name config, config := config,
            env := blobmsg_list_simple_init, data := blobmsg_list_simple_init }).1 := rfl

/-- C17: `construct` is total; the instance it returns carries the name of the
entry and the entry itself, has no process, and is valid exactly when the entry
has a command attribute (an array named `command`) all of whose elements are
strings and which has at least one element, and its `env` table and its `data`
table, when the entry has them, hold strings only. An entry with no command,
with an empty command, with a non-string element in the command, or with a
non-string element in `env` or `data` gives an invalid instance, not an
error. -/
theorem construct_spec (config : blob_attr_config) :
    (construct config).name = config.name ∧
      (construct config).config = config ∧
      (construct config).proc.pending = false ∧
      ((construct config).valid = true ↔
        ∃ cur,
          config.attrs.find? (fun a => a.type == BLOBMSG_TYPE_ARRAY && a.name == "command") =
            some cur ∧
          (∀ e ∈ cur.children, e.type = BLOBMSG_TYPE_STRING) ∧
          cur.children ≠ [] ∧
          (∀ env,
            config.attrs.find? (fun a => a.type == BLOBMSG_TYPE_TABLE && a.name == "env") =
              some env →
            ∀ e ∈ env.children, e.type = BLOBMSG_TYPE_STRING) ∧
          (∀ data,
            config.attrs.find? (fun a => a.type == BLOBMSG_TYPE_TABLE && a.name == "data") =
              some data →
            ∀ e ∈ data.children, e.type = BLOBMSG_TYPE_STRING)) ∧
      (construct config_sleep).valid = true ∧
      (construct config_empty).valid = false ∧
      (construct ⟨"inst1", [cmd_string]⟩).valid = false ∧
      (construct ⟨"inst1", [cmd_none]⟩).valid = false ∧
      (construct ⟨"inst1", [cmd_int]⟩).valid = false ∧
      (construct ⟨"inst1", [cmd_a, env_int]⟩).valid = false ∧
      (construct ⟨"inst1", [cmd_a, data_int]⟩).valid = false := by
  refine ⟨(instance_init_frame service_instance_zero config).1,
    (instance_init_frame service_instance_zero config).2.1, ?_, ?_,
    by decide, by decide, by decide, by decide, by decide, by decide, by decide⟩
  · rw [construct_proc]
  · rw [construct_valid, instance_config_parse_verdict]
    obtain ⟨p0, p1, p2⟩ := blobmsg_parse_instance_attr config
    dsimp only
    constructor
    · rintro ⟨cur, h0, hc, hk, he, hd⟩
      refine ⟨cur, p0 ▸ h0, (blobmsg_check_attr_list_parsed config _ cur h0).1 hc, hk, ?_, ?_⟩
      · intro env henv
        have h1 : blobmsg_parse instance_attr config INSTANCE_ATTR_ENV = some env := by
          rw [p1]; exact henv
        exact (blobmsg_check_attr_list_parsed config _ env h1).1 (he env h1)
      · intro data hdata
        have h2 : blobmsg_parse instance_attr config INSTANCE_ATTR_DATA = some data := by
          rw [p2]; exact hdata
        exact (blobmsg_check_attr_list_parsed config _ data h2).1 (hd data h2)
    · rintro ⟨cur, h0, hc, hk, he, hd⟩
      have h0p : blobmsg_parse instance_attr config INSTANCE_ATTR_COMMAND = some cur := by
        rw [p0]; exact h0
      refine ⟨cur, h0p, (blobmsg_check_attr_list_parsed config _ cur h0p).2 hc, hk, ?_, ?_⟩
      · intro env h1
        exact (blobmsg_check_attr_list_parsed config _ env h1).2 (he env (p1 ▸ h1))
      · intro data h2
        exact (blobmsg_check_attr_list_parsed config _ data h2).2 (hd data (p2 ▸ h2))

/-! ## C18: the status dump -/

/-- On an instance that has a command stored, `instance_dump` does not fault,
returns the instance as it was and adds exactly one table to the buffer, named
after the instance, which holds `running` (1 when a process is pending, 0
otherwise), then `pid` only when a process is pending, whose value is the
recorded pid as a 32-bit unsigned number (the pid itself when it is in that
range), then the stored command as it is. -/
theorem instance_dump_of_command (b : List blobmsg_table) (in_ : service_instance)
    (command : blob_attr) (hcmd : in_.command = some command) :
    instance_dump b in_ =
        some (b ++ [⟨in_.name,
          [blobmsg_field.u8 "running" (if in_.proc.pending then 1 else 0)] ++
            (if in_.proc.pending then
              [blobmsg_field.u32 "pid" (in_.proc.pid % 2 ^ 32).toNat] else []) ++
            [blobmsg_field.blob command]⟩], in_) ∧
      (in_.proc.pending = true →
        instance_dump b in_ =
          some (b ++ [⟨in_.name, [blobmsg_field.u8 "running" 1,
            blobmsg_field.u32 "pid" (in_.proc.pid % 2 ^ 32).toNat,
            blobmsg_field.blob command]⟩], in_)) ∧
      (in_.proc.pending = false →
        instance_dump b in_ =
          some (b ++ [⟨in_.name, [blobmsg_field.u8 "running" 0,
            blobmsg_field.blob command]⟩], in_)) ∧
      (((in_.proc.pid % 2 ^ 32).toNat : Int) = in_.proc.pid % 2 ^ 32) ∧
      (0 ≤ in_.proc.pid → in_.proc.pid < 2 ^ 32 →
        ((in_.proc.pid % 2 ^ 32).toNat : Int) = in_.proc.pid) := by
  have hmod : 0 ≤ in_.proc.pid % 2 ^ 32 := Int.emod_nonneg _ (by norm_num)
  refine ⟨?_, ?_, ?_, Int.toNat_of_nonneg hmod, ?_⟩
  · unfold instance_dump blobmsg_add_blob
    cases in_.proc.pending <;> simp [hcmd]
  · intro hp
    simp [instance_dump, blobmsg_add_blob, hp, hcmd]
  · intro hp
    simp [instance_dump, blobmsg_add_blob, hp, hcmd]
  · intro h0 h1
    rw [Int.toNat_of_nonneg hmod]
    exact Int.emod_eq_of_lt h0 h1

/-- The dump faults exactly on the instances that have no command stored. -/
theorem instance_dump_fault_iff (b : List blobmsg_table) (in_ : service_instance) :
    instance_dump b in_ = none ↔ in_.command = none := by
  unfold instance_dump blobmsg_add_blob
  cases in_.command <;> simp

/-- C18: evaluation of `instance_dump` on the reachable instance constructed
from an entry without a command: no command is stored (NULL), the call faults
and nothing is emitted. The same holds for the reachable instance
`valid_updated_empty` and for that instance once started (running, pid 5). On
instances that have a command the dump is as claimed: for `running_a` one table
with running 1, pid 5 and the command, for the stopped instance of `config_a`
one table with running 0 and the command, the instance unchanged. -/
theorem instance_dump_faults_without_command :
    Reachable (construct config_empty) ∧
      (construct config_empty).command = none ∧
      instance_dump [] (construct config_empty) = none ∧
      Reachable (instance_start ⟨5, false⟩ valid_updated_empty).inst ∧
      instance_dump [] valid_updated_empty = none ∧
      (instance_start ⟨5, false⟩ valid_updated_empty).inst.proc = ⟨true, 5⟩ ∧
      instance_dump [] (instance_start ⟨5, false⟩ valid_updated_empty).inst = none ∧
      instance_dump [] running_a =
        some ([⟨"inst1", [blobmsg_field.u8 "running" 1, blobmsg_field.u32 "pid" 5,
                          blobmsg_field.blob cmd_a]⟩], running_a) ∧
      instance_dump [] (construct config_a) =
        some ([⟨"inst1", [blobmsg_field.u8 "running" 0, blobmsg_field.blob cmd_a]⟩],
          construct config_a) :=
  ⟨Reachable.construct config_empty, by decide, by decide,
    Reachable.start ⟨5, false⟩ valid_updated_empty
      (Reachable.update (construct config_a) config_empty (Reachable.construct config_a))
      (by decide),
    by decide, by decide, by decide, by decide, by decide⟩

/-! ## C19: the child launcher -/

theorem command_argv_get (command : blob_attr) (i : Nat)
    (h : i < (blobmsg_for_each_attr command).length) :
    (command_argv command).get? i =
      ((blobmsg_for_each_attr command).get? i).map
        (fun cur => argv_slot.str (blobmsg_data cur)) := by
  unfold command_argv
  simp only [List.get?_eq_getElem?]
  rw [List.getElem?_append_left (by simpa using h)]
  simp

theorem command_argv_get_last (command : blob_attr) :
    (command_argv command).get? (blobmsg_for_each_attr command).length =
      some argv_slot.null := by
  unfold command_argv
  simp

/-- C19: for a command of `n ≥ 1` elements, `instance_run` counts `n + 1`
slots and reserves that many; the fill loop stores element `i` of the command
in slot `i` for every `i < n`, in order, and the terminator goes to slot `n`,
every store falling inside the reserved array (no fault); the calls issued are
one `putenv` per environment entry, then `execvp` with the first command string
as file and the whole vector, then, only when `execvp` returns, `exit` with
status 127; and in the forked child control never returns from
`instance_start`. -/
theorem instance_run_marshalling (sys : os) (in_ : service_instance) (command : blob_attr)
    (n : Nat) (hcmd : in_.command = some command)
    (hn : (blobmsg_for_each_attr command).length = n) (hpos : 1 ≤ n) :
    instance_run_count (blobmsg_for_each_attr command) 1 = n + 1 ∧
      (alloca (n + 1)).length = n + 1 ∧
      instance_run_fill (blobmsg_for_each_attr command) (alloca (n + 1)) 0 =
        some ((blobmsg_for_each_attr command).map
                (fun cur => argv_slot.str (blobmsg_data cur)) ++ [argv_slot.uninit], n) ∧
      argv_store
          ((blobmsg_for_each_attr command).map
            (fun cur => argv_slot.str (blobmsg_data cur)) ++ [argv_slot.uninit])
          n argv_slot.null = some (command_argv command) ∧
      (command_argv command).length = n + 1 ∧
      (∀ i, i < n →
        (command_argv command).get? i =
          ((blobmsg_for_each_attr command).get? i).map
            (fun cur => argv_slot.str (blobmsg_data cur))) ∧
      (command_argv command).get? n = some argv_slot.null ∧
      instance_run sys in_ =
        in_.env.map (fun var => Event.putenv (blobmsg_data var)) ++
          [Event.execvp
            ((blobmsg_for_each_attr command).head?.map
              (fun cur => argv_slot.str (blobmsg_data cur)))
            (command_argv command)] ++
          (if sys.execvp_returns then [Event.exit 127] else []) ∧
      Event.fault ∉ instance_run sys in_ ∧
      (in_.valid = true → in_.proc.pending = false → sys.fork = 0 →
        (instance_start sys in_).returned = false ∧
        (instance_start sys in_).trace =
          Event.fork 0 :: instance_run sys { in_ with restart := false }) := by
  have hfill := instance_run_fill_eq (blobmsg_for_each_attr command) [] 1
  simp only [List.nil_append, List.length_nil, Nat.zero_add, hn] at hfill
  have hrep : List.replicate 1 argv_slot.uninit = [argv_slot.uninit] := rfl
  rw [hrep] at hfill
  have hstore := argv_store_append
    ((blobmsg_for_each_attr command).map (fun cur => argv_slot.str (blobmsg_data cur))) []
    argv_slot.uninit argv_slot.null
  simp only [List.length_map, hn] at hstore
  have hhead : (command_argv command).get? 0 =
      (blobmsg_for_each_attr command).head?.map
        (fun cur => argv_slot.str (blobmsg_data cur)) := by
    rw [command_argv_get command 0 (by omega)]
    cases blobmsg_for_each_attr command <;> rfl
  have hrun : instance_run sys in_ =
      in_.env.map (fun var => Event.putenv (blobmsg_data var)) ++
        [Event.execvp
          ((blobmsg_for_each_attr command).head?.map
            (fun cur => argv_slot.str (blobmsg_data cur)))
          (command_argv command)] ++
        (if sys.execvp_returns then [Event.exit 127] else []) := by
    rw [instance_run_eq sys in_ command hcmd, child_trace, hhead]
  refine ⟨?_, ?_, hfill, hstore, ?_, ?_, ?_, hrun, ?_, ?_⟩
  · rw [instance_run_count_eq, hn]; omega
  · simp [alloca]
  · simp [command_argv, hn]
  · intro i hi
    exact command_argv_get command i (by omega)
  · rw [← hn]; exact command_argv_get_last command
  · rw [hrun]
    cases sys.execvp_returns <;> simp
  · intro hv hp hf
    simp [instance_start, hv, hp, hf]

theorem instance_run_marshalling_witness :
    instance_run_count (blobmsg_for_each_attr cmd_sleep) 1 = 2 + 1 ∧
      (alloca (2 + 1)).length = 2 + 1 ∧
      instance_run_fill (blobmsg_for_each_attr cmd_sleep) (alloca (2 + 1)) 0 =
        some ((blobmsg_for_each_attr cmd_sleep).map
                (fun cur => argv_slot.str (blobmsg_data cur)) ++ [argv_slot.uninit], 2) ∧
      argv_store
          ((blobmsg_for_each_attr cmd_sleep).map
            (fun cur => argv_slot.str (blobmsg_data cur)) ++ [argv_slot.uninit])
          2 argv_slot.null = some (command_argv cmd_sleep) ∧
      (command_argv cmd_sleep).length = 2 + 1 ∧
      (∀ i, i < 2 →
        (command_argv cmd_sleep).get? i =
          ((blobmsg_for_each_attr cmd_sleep).get? i).map
            (fun cur => argv_slot.str (blobmsg_data cur))) ∧
      (command_argv cmd_sleep).get? 2 = some argv_slot.null ∧
      instance_run ⟨0, true⟩ (construct config_sleep) =
        (construct config_sleep).env.map (fun var => Event.putenv (blobmsg_data var)) ++
          [Event.execvp
            ((blobmsg_for_each_attr cmd_sleep).head?.map
              (fun cur => argv_slot.str (blobmsg_data cur)))
            (command_argv cmd_sleep)] ++
          (if (os.mk 0 true).execvp_returns then [Event.exit 127] else []) ∧
      Event.fault ∉ instance_run ⟨0, true⟩ (construct config_sleep) ∧
      ((construct config_sleep).valid = true → (construct config_sleep).proc.pending = false →
        (os.mk 0 true).fork = 0 →
        (instance_start ⟨0, true⟩ (construct config_sleep)).returned = false ∧
        (instance_start ⟨0, true⟩ (construct config_sleep)).trace =
          Event.fork 0 ::
            instance_run ⟨0, true⟩ { construct config_sleep with restart := false }) :=
  instance_run_marshalling ⟨0, true⟩ (construct config_sleep) cmd_sleep 2 (by decide)
    (by decide) (by decide)

end Procd
